import Mathlib

/-!
Shallow embedding of `src/tweepy/api.py` (the `API` class of tweepy).

The repository is a set of declarative endpoint bindings produced by
`bind_api` plus a handful of hand-written methods.  The hand-written
methods are embedded here directly from the source: the probe-style
methods that convert a `TweepError` into `False`, the multipart image
packer `API._pack_image`, the list methods that interpolate the
authenticated username into the request path, `API.lookup_users`, and
the two profile-image upload methods.  Components of the repository
that the claims need but that are not among the given sources (the
retry loop of `tweepy/binder.py` and `list_to_csv` of
`tweepy/utils.py`) are modelled from the specification and are marked
as such in their doc comments.

The source is Python 2: a `str` is a byte string, so strings are
modelled as Lean `String`s whose characters each stand for one byte,
and byte sequences as `List Nat`.
-/

namespace Tweepy

/-- Python exceptions as far as `api.py` distinguishes them: the
`TweepError` class caught by the probe methods, and every other
exception class. -/
inductive PyErr
  | tweepError (msg : String)
  | otherError (msg : String)
deriving DecidableEq, Repr

/-- Values returned by the `API` methods: a parsed model object of
payload type `α`, a Python boolean, or Python `None`. -/
inductive PyRet (α : Type)
  | obj (v : α)
  | boolean (b : Bool)
  | none
deriving DecidableEq, Repr

/-! ### Probe-style bindings (`API.exists_block`, `API.verify_credentials`,
`API.test`, `API.is_list_member`, `API.is_subscribed_list`)

Each of these methods wraps its `bind_api(...)(self, ...)` invocation in
`try: ... except TweepError: return False`.  The invocation itself is
represented by its outcome `bound : Except PyErr α`: either the parsed
payload or the exception it raised. -/

/-- `API.exists_block`: runs the bound call, returns `True` when it
succeeds, returns `False` when it raises a `TweepError`; any other
exception propagates. -/
def exists_block {α : Type} (bound : Except PyErr α) : Except PyErr (PyRet α) :=
  match bound with
  | Except.ok _ => Except.ok (PyRet.boolean true)
  | Except.error (PyErr.tweepError _) => Except.ok (PyRet.boolean false)
  | Except.error e => Except.error e

/-- `API.verify_credentials`: returns the parsed user on success,
returns `False` when the bound call raises a `TweepError`; any other
exception propagates. -/
def verify_credentials {α : Type} (bound : Except PyErr α) : Except PyErr (PyRet α) :=
  match bound with
  | Except.ok v => Except.ok (PyRet.obj v)
  | Except.error (PyErr.tweepError _) => Except.ok (PyRet.boolean false)
  | Except.error e => Except.error e

/-- `API.test`: returns `True` when the bound call succeeds, `False`
when it raises a `TweepError`; any other exception propagates. -/
def test {α : Type} (bound : Except PyErr α) : Except PyErr (PyRet α) :=
  match bound with
  | Except.ok _ => Except.ok (PyRet.boolean true)
  | Except.error (PyErr.tweepError _) => Except.ok (PyRet.boolean false)
  | Except.error e => Except.error e

/-- `API.is_list_member`: returns the parsed user on success, `False`
when the bound call raises a `TweepError`; any other exception
propagates. -/
def is_list_member {α : Type} (bound : Except PyErr α) : Except PyErr (PyRet α) :=
  match bound with
  | Except.ok v => Except.ok (PyRet.obj v)
  | Except.error (PyErr.tweepError _) => Except.ok (PyRet.boolean false)
  | Except.error e => Except.error e

/-- `API.is_subscribed_list`: returns the parsed user on success,
`False` when the bound call raises a `TweepError`; any other exception
propagates. -/
def is_subscribed_list {α : Type} (bound : Except PyErr α) : Except PyErr (PyRet α) :=
  match bound with
  | Except.ok v => Except.ok (PyRet.obj v)
  | Except.error (PyErr.tweepError _) => Except.ok (PyRet.boolean false)
  | Except.error e => Except.error e

/-- Every binding of `api.py` that is not one of the five probe methods
is the `bind_api(...)` callable itself (for example `get_user`,
`create_block`, `update_status`): its outcome, success or exception, is
the bound call's own, unchanged. -/
def plainBinding {α : Type} (bound : Except PyErr α) : Except PyErr α :=
  bound

/-! ### Python string formatting with `%s` -/

/-- Splits a character sequence at each occurrence of the two-character
conversion `%s`, keeping the literal pieces between occurrences. -/
def splitPS : List Char → List (List Char)
  | [] => [[]]
  | '%' :: 's' :: rest => [] :: splitPS rest
  | c :: rest =>
    match splitPS rest with
    | [] => [[c]]
    | p :: ps => (c :: p) :: ps

/-- Interleaves the literal pieces of a template with the formatted
arguments, piece first. -/
def joinInterleave : List String → List String → String
  | [], _ => ""
  | [piece], _ => piece
  | piece :: rest, [] => piece ++ joinInterleave rest []
  | piece :: rest, a :: args => piece ++ a ++ joinInterleave rest args

/-- Python `%`-formatting restricted to `%s` conversions, the only kind
`api.py` uses: `template % args` substitutes the arguments for the
`%s` occurrences in order. -/
def pyFormat (template : String) (args : List String) : String :=
  joinInterleave ((splitPS template.data).map String.mk) args

/-- Python `str(x)` for an optional string, as `%s` renders it: the
string itself, or the text `None` for Python `None`. -/
def pyStr : Option String → String
  | Option.some s => s
  | Option.none => "None"

/-! ### The mimetypes collaborator -/

/-- The extension-to-MIME-type table of the Python `mimetypes` module,
restricted to the extensions exercised here; any extension outside the
table yields no type.  Lookup is by the (lower-cased) extension after
the final dot of the filename, as `mimetypes.guess_type` does for
filenames without encoding suffixes. -/
def extMime : String → Option String
  | "gif" => Option.some "image/gif"
  | "jpg" => Option.some "image/jpeg"
  | "jpeg" => Option.some "image/jpeg"
  | "jpe" => Option.some "image/jpeg"
  | "png" => Option.some "image/png"
  | "txt" => Option.some "text/plain"
  | "html" => Option.some "text/html"
  | "htm" => Option.some "text/html"
  | "pdf" => Option.some "application/pdf"
  | "bmp" => Option.some "image/bmp"
  | "tif" => Option.some "image/tiff"
  | "tiff" => Option.some "image/tiff"
  | _ => Option.none

/-- The characters after the last dot of the character sequence, when a
dot occurs at all. -/
def afterLastDot : List Char → Option (List Char)
  | [] => Option.none
  | c :: rest =>
    match afterLastDot rest with
    | Option.some e => Option.some e
    | Option.none => if c = '.' then Option.some rest else Option.none

/-- The extension after the final dot of a filename, lower-cased;
empty when the filename has no dot. -/
def fileExt (filename : String) : String :=
  match afterLastDot filename.data with
  | Option.none => ""
  | Option.some ext => String.mk (ext.map Char.toLower)

/-- Python's `mimetypes.guess_type`: it always returns a
`(type, encoding)` tuple.  The tuple itself is never `None`; for an
unrecognized extension its first component is `None`. -/
def guess_type (filename : String) : Option (Option String × Option String) :=
  Option.some (extMime (fileExt filename), Option.none)

/-! ### `API._pack_image` -/

/-- The file-system facts `_pack_image` consults about its file:
`getsize` is the result of `os.path.getsize` (`Option.none` models the
`os.error` raised for an inaccessible file) and `bytes` is the content
that `fp.read()` returns. -/
structure FileModel where
  getsize : Option Nat
  bytes : List Nat
deriving DecidableEq, Repr

/-- The file-system side effects `_pack_image` can perform: the one
size stat and the one content read. -/
inductive FSEvent
  | statSize
  | readFile
deriving DecidableEq, Repr

/-- The `TweepError`s `_pack_image` raises, one constructor per raise
site, named after the specification's error taxonomy. -/
inductive PackErr
  | fileTooLarge
  | fileUnreadable
  | unknownType
  | unsupportedType (t : String)
deriving DecidableEq, Repr

/-- The message text of each `_pack_image` raise site in the source. -/
def packErrMsg : PackErr → String
  | PackErr.fileTooLarge => "File is too big, must be less than 700kb."
  | PackErr.fileUnreadable => "Unable to access file"
  | PackErr.unknownType => "Could not determine file type"
  | PackErr.unsupportedType t => pyFormat "Invalid file type for image: %s" [t]

/-- The header dictionary `_pack_image` returns:
`Content-Type` and `Content-Length`. -/
structure PackHeaders where
  contentType : String
  contentLength : Nat
deriving DecidableEq, Repr

/-- The bytes of a Python 2 `str`: each character is one byte. -/
def strBytes (s : String) : List Nat :=
  s.data.map Char.toNat

/-- Python's `'\r\n'.join`: joins byte chunks with CR LF (13, 10). -/
def crlfJoin (chunks : List (List Nat)) : List Nat :=
  List.intercalate [13, 10] chunks

/-- The fixed boundary token of `_pack_image`. -/
def BOUNDARY : String := "Tw3ePy"

/-- The MIME types `_pack_image` accepts. -/
def supportedImageTypes : List String :=
  ["image/gif", "image/jpeg", "image/png"]

/-- Python's `in` test of a possibly-`None` file type against a list of
strings: `None` is equal to none of them. -/
def pyIn (x : Option String) (l : List String) : Bool :=
  match x with
  | Option.some s => decide (s ∈ l)
  | Option.none => false

/-- `API._pack_image`, embedded step by step from the source, together
with the trace of file-system effects it performs: first the size stat
(`os.path.getsize`, raising on an inaccessible file, with the too-large
check inside the same `try`), then the MIME-type determination from the
filename (note `mimetypes.guess_type` always returns a tuple, so its
`None` check is a dead branch and an undetermined type reaches the
support check as `None`), and only then the single read of the file and
the assembly of the multipart body and the header overrides. -/
def packImage (filename : String) (max_size : Nat) (file : FileModel) :
    List FSEvent × Except PackErr (PackHeaders × List Nat) :=
  match file.getsize with
  | Option.none => ([FSEvent.statSize], Except.error PackErr.fileUnreadable)
  | Option.some sz =>
    if sz > max_size * 1024 then
      ([FSEvent.statSize], Except.error PackErr.fileTooLarge)
    else
      match guess_type filename with
      | Option.none => ([FSEvent.statSize], Except.error PackErr.unknownType)
      | Option.some ft =>
        let file_type := ft.1
        if pyIn file_type supportedImageTypes then
          let body := crlfJoin
            [ strBytes ("--" ++ BOUNDARY),
              strBytes (pyFormat
                "Content-Disposition: form-data; name=\"image\"; filename=\"%s\""
                [filename]),
              strBytes (pyFormat "Content-Type: %s" [pyStr file_type]),
              strBytes "",
              file.bytes,
              strBytes ("--" ++ BOUNDARY ++ "--"),
              strBytes "" ]
          ([FSEvent.statSize, FSEvent.readFile],
            Except.ok
              (⟨"multipart/form-data; boundary=Tw3ePy", body.length⟩, body))
        else
          ([FSEvent.statSize],
            Except.error (PackErr.unsupportedType (pyStr file_type)))

/-! ### The specification's view of the multipart body

These definitions follow the specification's wording (one named part
carrying the file bytes between boundary markers) and exist to be
compared with the body `packImage` assembles. -/

/-- One part of a multipart/form-data body as the specification
describes it: a part name, the uploaded filename, the part's content
type, and the content bytes. -/
structure SpecPart where
  name : String
  filename : String
  contentType : String
  content : List Nat
deriving DecidableEq, Repr

/-- The serialized chunks of one part: the boundary marker, the
content-disposition line naming the part, the content-type line, a
blank line, and the content bytes. -/
def specPartChunks (boundary : String) (p : SpecPart) : List (List Nat) :=
  [ strBytes ("--" ++ boundary),
    strBytes ("Content-Disposition: form-data; name=\"" ++ p.name ++
      "\"; filename=\"" ++ p.filename ++ "\""),
    strBytes ("Content-Type: " ++ p.contentType),
    strBytes "",
    p.content ]

/-- A whole multipart/form-data body per the specification: the parts
in order, then the closing boundary marker and a trailing line break. -/
def specMultipartBody (boundary : String) (parts : List SpecPart) : List Nat :=
  crlfJoin ((parts.map (specPartChunks boundary)).flatten ++
    [strBytes ("--" ++ boundary ++ "--"), strBytes ""])

/-! ### List methods interpolating the authenticated username -/

/-- The auth collaborator as `api.py` uses it here: `get_username` is
the authenticated username that `self.auth.get_username()` returns at
call time. -/
structure AuthHandler where
  get_username : String
deriving DecidableEq, Repr

/-- The `bind_api` configuration a list method constructs at call time;
only the fields the claims consult are kept. -/
structure Descriptor where
  path : String
  httpMethod : String
  require_auth : Bool
deriving DecidableEq, Repr

/-- `API.create_list`: builds its binding at call time with the path
`'/%s/lists.json' % self.auth.get_username()`; the caller's named
arguments `kargs` are forwarded to the bound call and play no role in
the path. -/
def create_list (auth : AuthHandler) (kargs : List (String × String)) : Descriptor :=
  ⟨pyFormat "/%s/lists.json" [auth.get_username], "POST", true⟩

/-- `API.destroy_list`: path
`'/%s/lists/%s.json' % (self.auth.get_username(), slug)`. -/
def destroy_list (auth : AuthHandler) (slug : String) : Descriptor :=
  ⟨pyFormat "/%s/lists/%s.json" [auth.get_username, slug], "DELETE", true⟩

/-- `API.update_list`: path
`'/%s/lists/%s.json' % (self.auth.get_username(), slug)`; `kargs` are
forwarded to the bound call. -/
def update_list (auth : AuthHandler) (slug : String)
    (kargs : List (String × String)) : Descriptor :=
  ⟨pyFormat "/%s/lists/%s.json" [auth.get_username, slug], "POST", true⟩

/-- `API.add_list_member`: path
`'/%s/%s/members.json' % (self.auth.get_username(), slug)`; `kargs` are
forwarded to the bound call. -/
def add_list_member (auth : AuthHandler) (slug : String)
    (kargs : List (String × String)) : Descriptor :=
  ⟨pyFormat "/%s/%s/members.json" [auth.get_username, slug], "POST", true⟩

/-- `API.remove_list_member`: path
`'/%s/%s/members.json' % (self.auth.get_username(), slug)`; `kargs` are
forwarded to the bound call. -/
def remove_list_member (auth : AuthHandler) (slug : String)
    (kargs : List (String × String)) : Descriptor :=
  ⟨pyFormat "/%s/%s/members.json" [auth.get_username, slug], "DELETE", true⟩

/-! ### `API.lookup_users` -/

/-- A value passed as a named parameter to a bound call: either a
single string or a sequence of identifiers. -/
inductive ParamValue
  | str (s : String)
  | seq (items : List String)
deriving DecidableEq, Repr

/-- Whether the parameter value is a single string. -/
def ParamValue.isStr : ParamValue → Bool
  | ParamValue.str _ => true
  | ParamValue.seq _ => false

/-- Modelled from the spec: `list_to_csv` lives in `tweepy/utils.py`,
which is not among the given sources.  Per the specification, a
sequence-valued named parameter is pre-joined into a single
comma-separated value; an absent sequence stays absent. -/
def list_to_csv : Option (List String) → Option ParamValue
  | Option.none => Option.none
  | Option.some items => Option.some (ParamValue.str (String.intercalate "," items))

/-- `API.lookup_users`: the pair of named parameter values
(`user_id`, `screen_name`) it hands to the bound call
`_lookup_users`, each pre-joined with `list_to_csv`. -/
def lookup_users (user_ids screen_names : Option (List String)) :
    Option ParamValue × Option ParamValue :=
  (list_to_csv user_ids, list_to_csv screen_names)

/-! ### The HTTP Executor retry loop -/

/-- Outcome of one transport attempt: a network-level failure, or a
response with a status code and a body. -/
inductive Attempt
  | networkFail
  | response (status : Nat) (body : String)
deriving DecidableEq, Repr

/-- Final outcome of the executor. -/
inductive ExecResult
  | success (body : String)
  | httpError (status : Nat) (body : String)
  | networkError
deriving DecidableEq, Repr

/-- Observable executor events: sending attempt number `i`, or sleeping
for `d` between attempts. -/
inductive ExecEvent
  | send (i : Nat)
  | sleep (d : Nat)
deriving DecidableEq, Repr

/-- Whether an executor event is a transport attempt. -/
def isSend : ExecEvent → Bool
  | ExecEvent.send _ => true
  | ExecEvent.sleep _ => false

/-- Modelled from the spec: the HTTP Executor retry loop lives in
`tweepy/binder.py`, which is not among the given sources.  Per §4.5 of
the specification: attempt the request; on a network-level failure or a
status in `retry_errors`, while retry budget remains, wait
`retry_delay` and retry; otherwise surface a non-2xx status as an HTTP
error, a persistent network failure as a network error, and hand a 2xx
body to the parser.  `transport i` is the outcome of the i-th
attempt, `remaining` the retries still available. -/
def executeFrom (transport : Nat → Attempt) (retry_errors : List Nat)
    (retry_delay : Nat) : Nat → Nat → List ExecEvent × ExecResult
  | i, 0 =>
    match transport i with
    | Attempt.networkFail => ([ExecEvent.send i], ExecResult.networkError)
    | Attempt.response s b =>
      if 200 ≤ s ∧ s < 300 then ([ExecEvent.send i], ExecResult.success b)
      else ([ExecEvent.send i], ExecResult.httpError s b)
  | i, remaining + 1 =>
    match transport i with
    | Attempt.networkFail =>
      let next := executeFrom transport retry_errors retry_delay (i + 1) remaining
      (ExecEvent.send i :: ExecEvent.sleep retry_delay :: next.1, next.2)
    | Attempt.response s b =>
      if s ∈ retry_errors then
        let next := executeFrom transport retry_errors retry_delay (i + 1) remaining
        (ExecEvent.send i :: ExecEvent.sleep retry_delay :: next.1, next.2)
      else if 200 ≤ s ∧ s < 300 then ([ExecEvent.send i], ExecResult.success b)
      else ([ExecEvent.send i], ExecResult.httpError s b)

/-- Modelled from the spec: one executor invocation starts at attempt 0
with `retry_count` retries available. -/
def execute (transport : Nat → Attempt) (retry_count retry_delay : Nat)
    (retry_errors : List Nat) : List ExecEvent × ExecResult :=
  executeFrom transport retry_errors retry_delay 0 retry_count

/-- How a lone attempt's outcome is surfaced when no retry budget
exists. -/
def singleOutcome : Attempt → ExecResult
  | Attempt.networkFail => ExecResult.networkError
  | Attempt.response s b =>
    if 200 ≤ s ∧ s < 300 then ExecResult.success b
    else ExecResult.httpError s b

/-! ### Profile image upload methods -/

/-- `API.update_profile_image`: packs the image with a 700 KB cap,
invokes the bound call with the multipart payload, and returns the
parsed result; a `TweepError` from `_pack_image` propagates. -/
def update_profile_image {α : Type} (filename : String) (file : FileModel)
    (bound : PackHeaders → List Nat → Except PyErr α) : Except PyErr (PyRet α) :=
  match (packImage filename 700 file).2 with
  | Except.error e => Except.error (PyErr.tweepError (packErrMsg e))
  | Except.ok (headers, post_data) =>
    (bound headers post_data).map PyRet.obj

/-- `API.update_profile_background_image`: packs the image with an
800 KB cap and invokes the bound call with the multipart payload, but
does not return its result — the method body has no `return`, so a
successful call yields Python `None`. -/
def update_profile_background_image {α : Type} (filename : String) (file : FileModel)
    (bound : PackHeaders → List Nat → Except PyErr α) : Except PyErr (PyRet α) :=
  match (packImage filename 800 file).2 with
  | Except.error e => Except.error (PyErr.tweepError (packErrMsg e))
  | Except.ok (headers, post_data) =>
    (bound headers post_data).map (fun _ => PyRet.none)

/-! ### Helper predicates used by the theorems -/

/-- Whether a pack outcome succeeded. -/
def isOkB {ε α : Type} : Except ε α → Bool
  | Except.ok _ => true
  | Except.error _ => false

/-- Whether a pack outcome is the too-large failure. -/
def isFileTooLargeB : Except PackErr (PackHeaders × List Nat) → Bool
  | Except.error PackErr.fileTooLarge => true
  | _ => false

/-- Whether a pack outcome is the (unreachable) undetermined-type
failure. -/
def isUnknownTypeB : Except PackErr (PackHeaders × List Nat) → Bool
  | Except.error PackErr.unknownType => true
  | _ => false

/-- C1: every probe binding (`exists_block`, `verify_credentials`,
`test`, `is_list_member`, `is_subscribed_list`) turns a `TweepError`
raised by its bound call into the boolean `False` instead of
propagating it, while a binding not marked as a probe is the bound
callable itself and surfaces every error unchanged. -/
theorem probe_bindings_swallow_tweeperror {α : Type} (msg : String) :
    exists_block (Except.error (PyErr.tweepError msg) : Except PyErr α) =
      Except.ok (PyRet.boolean false) ∧
    verify_credentials (Except.error (PyErr.tweepError msg) : Except PyErr α) =
      Except.ok (PyRet.boolean false) ∧
    test (Except.error (PyErr.tweepError msg) : Except PyErr α) =
      Except.ok (PyRet.boolean false) ∧
    is_list_member (Except.error (PyErr.tweepError msg) : Except PyErr α) =
      Except.ok (PyRet.boolean false) ∧
    is_subscribed_list (Except.error (PyErr.tweepError msg) : Except PyErr α) =
      Except.ok (PyRet.boolean false) ∧
    (∀ e : PyErr, plainBinding (Except.error e : Except PyErr α) = Except.error e) :=
  ⟨rfl, rfl, rfl, rfl, rfl, fun _ => rfl⟩

/-- C3: a file whose stat-reported size exceeds `max_size * 1024` bytes
makes `_pack_image` fail with the too-large `TweepError` after the one
size stat and before any read of the file. -/
theorem packImage_file_too_large (filename : String) (max_size : Nat)
    (file : FileModel) (sz : Nat) (hstat : file.getsize = Option.some sz)
    (hbig : sz > max_size * 1024) :
    packImage filename max_size file =
      ([FSEvent.statSize], Except.error PackErr.fileTooLarge) := by
  simp [packImage, hstat, hbig]

/-- C3 witness: a 701 KB file against a 700 KB limit is rejected before
any read. -/
theorem packImage_file_too_large_witness :
    packImage "pic.png" 700 ⟨Option.some (701 * 1024), []⟩ =
      ([FSEvent.statSize], Except.error PackErr.fileTooLarge) :=
  packImage_file_too_large "pic.png" 700 ⟨Option.some (701 * 1024), []⟩
    (701 * 1024) rfl (by norm_num)

/-- C9: a file of exactly `max_size * 1024` bytes passes the size
check — the comparison is strict — so `_pack_image` never raises the
too-large error at the boundary value. -/
theorem packImage_accepts_boundary_size (filename : String) (max_size : Nat)
    (bytes : List Nat) :
    isFileTooLargeB
      (packImage filename max_size ⟨Option.some (max_size * 1024), bytes⟩).2 =
      false := by
  have hle : ¬ max_size * 1024 > max_size * 1024 := lt_irrefl _
  simp only [packImage, hle, if_false, guess_type]
  by_cases h : pyIn (extMime (fileExt filename)) supportedImageTypes
  · simp [h, isFileTooLargeB]
  · simp [h, isFileTooLargeB]

/-- C7: `lookup_users` pre-joins any sequence-valued `user_ids` and
`screen_names` into single comma-separated string values before the
bound call, so `_lookup_users` never receives a sequence-valued named
parameter. -/
theorem lookup_users_prejoins_sequences (user_ids screen_names : Option (List String)) :
    (lookup_users user_ids screen_names).1 =
      Option.map (fun l => ParamValue.str (String.intercalate "," l)) user_ids ∧
    (lookup_users user_ids screen_names).2 =
      Option.map (fun l => ParamValue.str (String.intercalate "," l)) screen_names ∧
    Option.all ParamValue.isStr (lookup_users user_ids screen_names).1 = true ∧
    Option.all ParamValue.isStr (lookup_users user_ids screen_names).2 = true := by
  cases user_ids <;> cases screen_names <;>
    simp [lookup_users, list_to_csv, ParamValue.isStr]

/-- C5: on every path through `_pack_image` the file-system effects are
exactly one size stat followed, only when every validation check has
passed (so only on success), by exactly one read of the file: at most
one stat, at most one read, and no byte is read before validation is
complete. -/
theorem packImage_fs_effects (filename : String) (max_size : Nat) (file : FileModel) :
    (packImage filename max_size file).1 =
      (if isOkB (packImage filename max_size file).2 then
        [FSEvent.statSize, FSEvent.readFile]
      else [FSEvent.statSize]) := by
  unfold packImage
  cases file.getsize with
  | none => simp [isOkB]
  | some sz =>
    by_cases hsz : sz > max_size * 1024
    · simp [hsz, isOkB]
    · by_cases hty : pyIn (extMime (fileExt filename)) supportedImageTypes
      · simp [hsz, guess_type, hty, isOkB]
      · simp [hsz, guess_type, hty, isOkB]

/-- C2 (divergence witness): `mimetypes.guess_type` always returns a
tuple, so the undetermined-type branch of `_pack_image` is dead code;
a filename whose MIME type cannot be determined falls through to the
support check with a `None` file type and raises the unsupported-type
`TweepError` naming `None`, never the unknown-type one. -/
theorem packImage_undetermined_type_diverges :
    (packImage "photo.xyz" 700 ⟨Option.some 100, [1, 2, 3]⟩).2 =
      Except.error (PackErr.unsupportedType "None") ∧
    ∀ (filename : String) (max_size : Nat) (file : FileModel),
      isUnknownTypeB (packImage filename max_size file).2 = false := by
  refine ⟨rfl, ?_⟩
  intro filename max_size file
  unfold packImage
  cases file.getsize with
  | none => simp [isUnknownTypeB]
  | some sz =>
    by_cases hsz : sz > max_size * 1024
    · simp [hsz, isUnknownTypeB]
    · by_cases hty : pyIn (extMime (fileExt filename)) supportedImageTypes
      · simp [hsz, guess_type, hty, isUnknownTypeB]
      · simp [hsz, guess_type, hty, isUnknownTypeB]

/-- C10: when `_pack_image` and the bound call both succeed,
`update_profile_image` returns the parsed result of the bound call,
while `update_profile_background_image` discards it and returns
`None`. -/
theorem update_profile_return_values {α : Type} (filename : String)
    (file : FileModel) (bound bg : PackHeaders → List Nat → Except PyErr α)
    {hd hd' : PackHeaders} {dat dat' : List Nat} {v w : α}
    (h7 : (packImage filename 700 file).2 = Except.ok (hd, dat))
    (hb : bound hd dat = Except.ok v)
    (h8 : (packImage filename 800 file).2 = Except.ok (hd', dat'))
    (hb' : bg hd' dat' = Except.ok w) :
    update_profile_image filename file bound = Except.ok (PyRet.obj v) ∧
    update_profile_background_image filename file bg = Except.ok PyRet.none := by
  constructor
  · unfold update_profile_image
    rw [h7]
    simp [hb, Except.map]
  · unfold update_profile_background_image
    rw [h8]
    simp [hb', Except.map]

/-- C10 witness: a concrete 1-byte PNG upload whose bound call parses
to `7`: the profile-image method returns the parsed value, the
background-image method returns `None`. -/
theorem update_profile_return_values_witness :
    update_profile_image "p.png" ⟨Option.some 1, [55]⟩
      (fun _ _ => (Except.ok 7 : Except PyErr Nat)) = Except.ok (PyRet.obj 7) ∧
    update_profile_background_image "p.png" ⟨Option.some 1, [55]⟩
      (fun _ _ => (Except.ok 7 : Except PyErr Nat)) = Except.ok PyRet.none :=
  @update_profile_return_values Nat "p.png" ⟨Option.some 1, [55]⟩
    (fun _ _ => Except.ok 7) (fun _ _ => Except.ok 7)
    (((packImage "p.png" 700 ⟨Option.some 1, [55]⟩).2.toOption.getD (⟨"", 0⟩, [])).1)
    (((packImage "p.png" 800 ⟨Option.some 1, [55]⟩).2.toOption.getD (⟨"", 0⟩, [])).1)
    (((packImage "p.png" 700 ⟨Option.some 1, [55]⟩).2.toOption.getD (⟨"", 0⟩, [])).2)
    (((packImage "p.png" 800 ⟨Option.some 1, [55]⟩).2.toOption.getD (⟨"", 0⟩, [])).2)
    7 7 rfl rfl rfl rfl

/-- C6: each list-mutating method that omits the list owner from its
arguments builds its path by interpolating the username obtained from
the auth collaborator at call time; the caller-supplied named
arguments never reach the path. -/
theorem list_methods_interpolate_auth_username (auth : AuthHandler)
    (slug : String) (kargs kargs' : List (String × String)) :
    (create_list auth kargs).path = "/" ++ auth.get_username ++ "/lists.json" ∧
    (destroy_list auth slug).path =
      "/" ++ auth.get_username ++ "/lists/" ++ slug ++ ".json" ∧
    (update_list auth slug kargs).path =
      "/" ++ auth.get_username ++ "/lists/" ++ slug ++ ".json" ∧
    (add_list_member auth slug kargs).path =
      "/" ++ auth.get_username ++ "/" ++ slug ++ "/members.json" ∧
    (remove_list_member auth slug kargs).path =
      "/" ++ auth.get_username ++ "/" ++ slug ++ "/members.json" ∧
    create_list auth kargs = create_list auth kargs' ∧
    update_list auth slug kargs = update_list auth slug kargs' ∧
    add_list_member auth slug kargs = add_list_member auth slug kargs' ∧
    remove_list_member auth slug kargs = remove_list_member auth slug kargs' := by
  have h1 : (splitPS "/%s/lists.json".data).map String.mk =
      ["/", "/lists.json"] := rfl
  have h2 : (splitPS "/%s/lists/%s.json".data).map String.mk =
      ["/", "/lists/", ".json"] := rfl
  have h3 : (splitPS "/%s/%s/members.json".data).map String.mk =
      ["/", "/", "/members.json"] := rfl
  refine ⟨?_, ?_, ?_, ?_, ?_, rfl, rfl, rfl, rfl⟩ <;>
    simp [create_list, destroy_list, update_list, add_list_member,
      remove_list_member, pyFormat, h1, h2, h3, joinInterleave,
      String.append_assoc]

/-- Helper for C8: every event the executor emits is a transport
attempt or a sleep of exactly the configured delay. -/
theorem executeFrom_events (t : Nat → Attempt) (re : List Nat) (rd : Nat) :
    ∀ (n i : Nat) (e : ExecEvent), e ∈ (executeFrom t re rd i n).1 →
      isSend e = true ∨ e = ExecEvent.sleep rd := by
  intro n
  induction n with
  | zero =>
    intro i e he
    rcases h : t i with _ | ⟨s, b⟩ <;> simp only [executeFrom, h] at he
    · simp only [List.mem_singleton] at he; subst he; left; rfl
    · split at he <;>
        (simp only [List.mem_singleton] at he; subst he; left; rfl)
  | succ n ih =>
    intro i e he
    rcases h : t i with _ | ⟨s, b⟩ <;> simp only [executeFrom, h] at he
    · rcases List.mem_cons.mp he with rfl | he'
      · left; rfl
      · rcases List.mem_cons.mp he' with rfl | he''
        · right; rfl
        · exact ih (i + 1) e he''
    · split at he
      · rcases List.mem_cons.mp he with rfl | he'
        · left; rfl
        · rcases List.mem_cons.mp he' with rfl | he''
          · right; rfl
          · exact ih (i + 1) e he''
      · split at he <;>
          (simp only [List.mem_singleton] at he; subst he; left; rfl)

/-- Helper for C8: starting with `n` retries available, the executor
performs at most `n + 1` transport attempts. -/
theorem executeFrom_send_count (t : Nat → Attempt) (re : List Nat) (rd : Nat) :
    ∀ (n i : Nat), (executeFrom t re rd i n).1.countP isSend ≤ n + 1 := by
  intro n
  induction n with
  | zero =>
    intro i
    rcases h : t i with _ | ⟨s, b⟩ <;> simp only [executeFrom, h]
    · simp [List.countP_cons, isSend]
    · split <;> simp [List.countP_cons, isSend]
  | succ n ih =>
    intro i
    rcases h : t i with _ | ⟨s, b⟩ <;> simp only [executeFrom, h]
    · simp [List.countP_cons, isSend]
      have := ih (i + 1)
      omega
    · split
      · simp [List.countP_cons, isSend]
        have := ih (i + 1)
        omega
      · split <;> simp [List.countP_cons, isSend]

/-- C8: one executor invocation makes at most `retry_count + 1`
transport attempts, every pause between attempts is the one fixed
`retry_delay`, and with `retry_count = 0` exactly one attempt is made
and its outcome — success or failure — is surfaced immediately. -/
theorem execute_retry_bounded (t : Nat → Attempt) (retry_count retry_delay : Nat)
    (retry_errors : List Nat) :
    (execute t retry_count retry_delay retry_errors).1.countP isSend ≤
      retry_count + 1 ∧
    (execute t retry_count retry_delay retry_errors).1.all
      (fun e => isSend e || decide (e = ExecEvent.sleep retry_delay)) = true ∧
    execute t 0 retry_delay retry_errors = ([ExecEvent.send 0], singleOutcome (t 0)) := by
  refine ⟨executeFrom_send_count t retry_errors retry_delay retry_count 0, ?_, ?_⟩
  · rw [List.all_eq_true]
    intro e he
    rcases executeFrom_events t retry_errors retry_delay retry_count 0 e he with h | h
    · simp [h]
    · simp [h]
  · cases h : t 0 with
    | networkFail => simp [execute, executeFrom, singleOutcome, h]
    | response s b =>
      simp only [execute, executeFrom, singleOutcome, h]
      split <;> rfl

/-- C4: for a file that passes every validation check, `_pack_image`
builds exactly the specification's multipart/form-data body — the fixed
boundary token, exactly one part named `image` carrying the file's
bytes under the detected MIME type — and produces exactly the header
overrides `Content-Type: multipart/form-data; boundary=<token>` and
`Content-Length` equal to the body's byte length. -/
theorem packImage_builds_spec_multipart (filename : String) (max_size : Nat)
    (file : FileModel) (sz : Nat) (t : String)
    (hstat : file.getsize = Option.some sz) (hsz : ¬ sz > max_size * 1024)
    (hmime : extMime (fileExt filename) = Option.some t)
    (hsupp : t ∈ supportedImageTypes) :
    (packImage filename max_size file).2 =
      Except.ok
        (⟨"multipart/form-data; boundary=" ++ BOUNDARY,
          (specMultipartBody BOUNDARY [⟨"image", filename, t, file.bytes⟩]).length⟩,
         specMultipartBody BOUNDARY [⟨"image", filename, t, file.bytes⟩]) := by
  have hsplit1 :
      (splitPS "Content-Disposition: form-data; name=\"image\"; filename=\"%s\"".data).map
        String.mk =
      ["Content-Disposition: form-data; name=\"image\"; filename=\"", "\""] := rfl
  have hsplit2 : (splitPS "Content-Type: %s".data).map String.mk =
      ["Content-Type: ", ""] := rfl
  have hin : pyIn (Option.some t) supportedImageTypes = true := by
    simp [pyIn, hsupp]
  simp [packImage, hstat, hsz, guess_type, hmime, hin, pyStr,
    specMultipartBody, specPartChunks, pyFormat, hsplit1, hsplit2,
    joinInterleave, crlfJoin, BOUNDARY, String.append_assoc, String.append_empty]

/-- C4 witness: a concrete 3-byte PNG under the limit produces exactly
the specification's one-part body and the two header overrides. -/
theorem packImage_builds_spec_multipart_witness :
    (packImage "pic.png" 700 ⟨Option.some 3, [9, 8, 7]⟩).2 =
      Except.ok
        (⟨"multipart/form-data; boundary=" ++ BOUNDARY,
          (specMultipartBody BOUNDARY
            [⟨"image", "pic.png", "image/png", [9, 8, 7]⟩]).length⟩,
         specMultipartBody BOUNDARY
           [⟨"image", "pic.png", "image/png", [9, 8, 7]⟩]) :=
  packImage_builds_spec_multipart "pic.png" 700 ⟨Option.some 3, [9, 8, 7]⟩ 3
    "image/png" rfl (by decide) rfl (by decide)

end Tweepy
